import Mathlib

/-!
Verification of the Power BI exporter plugin core
(`python-lib/powerbi.py` and
`python-exporters/python-with-credentials/exporter.py`).

The Python source is shallowly embedded: pure helpers become Lean
functions, the stateful exporter becomes explicit state passing on an
`ExpState` record, fallible paths (Python exceptions) become `Except`.
Network responses are modelled by a `Response` record that carries the
pieces of `requests.Response` the code inspects: the status code, the
raw body text, and the parsed JSON body (`none` when `response.json()`
would raise).
-/

set_option autoImplicit false

/-- Values that can appear in a row. `date iso` models a native temporal
value whose `isoformat()` method returns `iso` (the pandas `NaT` sentinel
is the temporal value whose `isoformat()` returns the string `NaT`);
`nan` models the float not-a-number sentinel; `null` models Python
`None`; `str` models any plain string value, which has no `isoformat`
method. -/
inductive PValue where
  | date : String → PValue
  | bool : Bool → PValue
  | nan : PValue
  | null : PValue
  | str : String → PValue
deriving DecidableEq, Repr

/-- A schema column: `name` and `type` fields of the DSS schema dict. -/
structure Column where
  name : String
  type : String
deriving DecidableEq, Repr

/-- A JSON value, as far as the error-extraction code inspects one:
a string leaf or an object with named fields. -/
inductive JVal where
  | s : String → JVal
  | o : List (String × JVal) → JVal

/-- The parts of a `requests.Response` the embedded code reads:
`status` is `status_code`, `content` is the raw body text, and `json`
is the parsed JSON body (`none` when `response.json()` raises). -/
structure Response where
  status : Nat
  content : String
  json : Option JVal

/-- The exception taxonomy. Python raises bare `Exception` (or calls
`sys.exit`) everywhere; constructors record which taxonomy class each
raise site corresponds to. `attributeError`, `typeError` and `keyError`
model the built-in Python exceptions of the same names. -/
inductive PbiError where
  | attributeError : PbiError
  | typeError : PbiError
  | keyError : PbiError
  | formatError : String → PbiError
  | apiError : String → PbiError
  | workspaceNotFound : String → PbiError
  | configurationError : String → PbiError
  | datasetCreationError : String → PbiError
  | jsonDecodeError : PbiError
deriving DecidableEq, Repr

/-- Constant `DEFAULT_PBI_TABLE` from `powerbi.py`. -/
def DEFAULT_PBI_TABLE : String := "dss-data"

/-- The `fieldSetterMap` dict from `powerbi.py`: DSS type to Power BI
data type. -/
def fieldSetterMap : List (String × String) :=
  [("boolean", "Boolean"),
   ("tinyint", "Int64"),
   ("smallint", "Int64"),
   ("int", "Int64"),
   ("bigint", "Int64"),
   ("float", "Double"),
   ("double", "Double"),
   ("date", "dateTime"),
   ("string", "String"),
   ("array", "String"),
   ("map", "String"),
   ("object", "String")]

/-- Python `dict.get(key, default)` on a string-keyed dict modelled as an
association list. -/
def dict_get (m : List (String × String)) (k : String) (default : String) : String :=
  match m.find? (fun p => decide (p.1 = k)) with
  | some p => p.2
  | none => default

/-- A column of the dataset-creation payload. -/
structure PBIColumn where
  name : String
  dataType : String
deriving DecidableEq, Repr

/-- A table of the dataset-creation payload. -/
structure PBITable where
  name : String
  columns : List PBIColumn
deriving DecidableEq, Repr

/-- The dataset-creation payload built by
`PowerBI.create_dataset_from_schema`. -/
structure PBIPayload where
  name : String
  defaultMode : String
  tables : List PBITable
deriving DecidableEq, Repr

/-- The column list built by the loop in
`PowerBI.create_dataset_from_schema`: for each schema column, keep the
name and map the type through `fieldSetterMap.get(type, "String")`. -/
def create_dataset_columns (schema : List Column) : List PBIColumn :=
  schema.map (fun c => ⟨c.name, dict_get fieldSetterMap c.type "String"⟩)

/-- The payload built by `PowerBI.create_dataset_from_schema` before it
is POSTed. -/
def create_dataset_payload (pbi_dataset : String) (pbi_table : String)
    (schema : List Column) : PBIPayload :=
  ⟨pbi_dataset, "PushStreaming", [⟨pbi_table, create_dataset_columns schema⟩]⟩

/-- A dataset as listed by the service: its `name` and `id` fields. -/
structure Dataset where
  name : String
  id : String
deriving DecidableEq, Repr

/-- `PowerBI.get_dataset_by_name`. The `value` argument models
`data.json().get('value')` of the list response: `none` when the key is
absent. The Python `if datasets:` guard and the loop collecting ids of
exact name matches are both captured by the fold (folding over the
empty list already yields the empty result). -/
def get_dataset_by_name (name : String) (value : Option (List Dataset)) : List String :=
  match value with
  | none => []
  | some datasets =>
      datasets.foldl (fun ret d => if d.name = name then ret ++ [d.id] else ret) []

/-- A workspace (group) as listed by the service. Python reads
`group.get("name", "")`, so a group with a missing name behaves as one
whose name is the empty string; `id` is the service-assigned id. -/
structure PbiGroup where
  name : String
  id : String
deriving DecidableEq, Repr

/-- Python `str.lower()`, modelled character-wise (the semantics of
`String.toLower`, stated over the character list so that it evaluates
inside the kernel). -/
def str_lower (s : String) : String :=
  ⟨s.data.map Char.toLower⟩

/-- `PowerBI.filter_group_by_name`: first group whose lowercased name
equals the lowercased query. Python returns the empty dict on no match,
which makes the subsequent `group.get("id")` return `None`; this is
modelled by `none`. -/
def filter_group_by_name (groups : List PbiGroup) (pbi_workspace : String) : Option PbiGroup :=
  groups.find? (fun g => decide (str_lower g.name = str_lower pbi_workspace))

/-- The message raised by `PowerBI.get_group_id_by_name` when no group
matches (wording kept from the source format string). -/
def workspace_not_found_message (w : String) : String :=
  "The workspace named " ++ w ++
    " does not exists on your Power BI account, or you do not have access to it"

/-- `PowerBI.get_group_id_by_name`. The first component is the result
(or the raised error); the second component records whether the
`GET /groups` network call was made. The `groups` argument is the
workspace list that the GET would return; the model assumes that GET
itself succeeds (its own error handling is covered by
`assert_response_ok`). Python compares `pbi_workspace is None`, so the
absent name is `none` and every actual string, the empty string
included, takes the lookup path. -/
def get_group_id_by_name (pbi_workspace : Option String) (groups : List PbiGroup) :
    Except PbiError (Option String) × Bool :=
  match pbi_workspace with
  | none => (.ok none, false)
  | some w =>
      if w = "My workspace" then (.ok none, false)
      else
        match filter_group_by_name groups w with
        | some g => (.ok (some g.id), true)
        | none => (.error (.workspaceNotFound (workspace_not_found_message w)), true)

/-- `get_value_from_path` from `powerbi.py`, specialised to the JSON
model. Walking into a string leaf yields the default: in Python either
the membership test fails (returning the default) or the subsequent
`.get` raises `AttributeError`, which the caller catches and replaces
by the same default (`response.content`). -/
def get_value_from_path : JVal → List String → JVal → JVal
  | j, [], _ => j
  | JVal.o fields, k :: ks, d =>
      match fields.find? (fun p => decide (p.1 = k)) with
      | some p => get_value_from_path p.2 ks d
      | none => d
  | JVal.s _, _ :: _, d => d

/-- Rendering of an extracted JSON value into the message string.
String leaves render as themselves; for an object Python would print
the dict repr, which no verified claim depends on, so a fixed marker is
used. -/
def jval_render : JVal → String
  | JVal.s v => v
  | JVal.o _ => "[json object]"

/-- `extract_error_message_from_response`: parse the body and walk
`error.message`, with `response.content` as the default both when the
body is not JSON (the `except` branch) and when the path is absent. -/
def extract_error_message_from_response (r : Response) : JVal :=
  match r.json with
  | none => JVal.s r.content
  | some j => get_value_from_path j ["error", "message"] (JVal.s r.content)

/-- `get_error_message` from `powerbi.py`. `custom` models the
`custom_error_messages` dict (ordered pairs of status code and
message); Python guards with `custom_error_messages and (status in
custom_error_messages)`, which coincides with a successful lookup. -/
def get_error_message (r : Response) (while_trying : Option String)
    (custom : List (Nat × String)) : String :=
  match custom.find? (fun p => decide (p.1 = r.status)) with
  | some p => p.2
  | none =>
      match while_trying with
      | none =>
          "Error " ++ Nat.repr r.status ++ ": " ++
            jval_render (extract_error_message_from_response r)
      | some wt =>
          "Error " ++ Nat.repr r.status ++ " while " ++ wt ++ ": " ++ r.content

/-- `handle_exception_message`: raise on `fail_on_errors`, otherwise
log the message and continue (`ok (some msg)` records the logged
message). -/
def handle_exception_message (msg : String) (fail_on_errors : Bool) :
    Except PbiError (Option String) :=
  if fail_on_errors then .error (.apiError msg) else .ok (some msg)

/-- `assert_response_ok` from `powerbi.py`. -/
def assert_response_ok (r : Response) (while_trying : Option String)
    (fail_on_errors : Bool) (custom : List (Nat × String)) :
    Except PbiError (Option String) :=
  if 400 ≤ r.status then
    handle_exception_message (get_error_message r while_trying custom) fail_on_errors
  else .ok none

/-- The response check performed by `PowerBI.post_table_row` through
`PowerBI.post` (which passes `fail_on_errors=True` and no custom
messages or context). -/
def post_table_row_check (r : Response) : Except PbiError (Option String) :=
  assert_response_ok r none true []

/-- Python `value.isoformat()` on the modelled values: only temporal
values have the method; everything else raises `AttributeError`
(modelled as `none`). -/
def isoformat : PValue → Option String
  | PValue.date iso => some iso
  | _ => none

/-- `date_convertion` from `powerbi.py`: call `isoformat()` and map the
`NaT` rendering to `None`. -/
def date_convertion (v : PValue) : Except PbiError PValue :=
  match isoformat v with
  | none => .error .attributeError
  | some r => .ok (if r = "NaT" then PValue.null else PValue.str r)

/-- Python `math.isnan` on the modelled values: defined on numbers
(`nan`, and booleans, which are numeric in Python), raises `TypeError`
on everything else. -/
def isnan : PValue → Except PbiError Bool
  | PValue.nan => .ok true
  | PValue.bool _ => .ok false
  | _ => .error .typeError

/-- `boolean_check` from `powerbi.py`: a not-a-number sentinel becomes
`None`, everything else passes through unchanged. -/
def boolean_check (v : PValue) : Except PbiError PValue :=
  match isnan v with
  | .error e => .error e
  | .ok b => .ok (if b then PValue.null else v)

/-- A row object: mapping from column name to value, in insertion
order. -/
abbrev Row : Type := List (String × PValue)

/-- Python `row[key]` (raises `KeyError` when absent, modelled by the
caller as `none`). -/
def row_get (row : Row) (k : String) : Option PValue :=
  (List.find? (fun p => decide (p.1 = k)) row).map (fun p => p.2)

/-- Python `row[key] = v` on a key that is present: replace the bound
value in place. (The transformation loops only assign to keys they
just read, so the key always exists.) -/
def row_set (row : Row) (k : String) (v : PValue) : Row :=
  List.map (fun p => if p.1 = k then (k, v) else p) row

/-- One step of the transformation loops of
`PowerBI.parse_formattable_values`: read the registered column, apply
the converter, write the result back. A missing column raises
`KeyError`. -/
def apply_col (f : PValue → Except PbiError PValue) (row : Row) (c : String) :
    Except PbiError Row :=
  match row_get row c with
  | none => .error .keyError
  | some v =>
      match f v with
      | .error e => .error e
      | .ok w => .ok (row_set row c w)

/-- The inner loop over registered date or boolean columns. -/
def apply_cols (f : PValue → Except PbiError PValue) :
    List String → Row → Except PbiError Row
  | [], row => .ok row
  | c :: cs, row =>
      match apply_col f row c with
      | .error e => .error e
      | .ok row1 => apply_cols f cs row1

/-- The loop over rows in `PowerBI.parse_formattable_values`: dates
first, then booleans, collecting the transformed rows in order. -/
def parse_rows (dateCols boolCols : List String) :
    List Row → Except PbiError (List Row)
  | [] => .ok []
  | row :: rest =>
      match apply_cols date_convertion dateCols row with
      | .error e => .error e
      | .ok row1 =>
          match apply_cols boolean_check boolCols row1 with
          | .error e => .error e
          | .ok row2 =>
              match parse_rows dateCols boolCols rest with
              | .error e => .error e
              | .ok rows => .ok (row2 :: rows)

/-- `PowerBI.parse_formattable_values`: run the transformation loops;
an `AttributeError` (a date value without `isoformat`) is caught and
re-raised as the format error (Python interpolates the offending value
into the message; the fixed part of the wording is kept). -/
def parse_formattable_values (dateCols boolCols : List String) (rows : List Row) :
    Except PbiError (List Row) :=
  match parse_rows dateCols boolCols rows with
  | .error .attributeError => .error (.formatError "Date is not correctly formatted")
  | r => r

/-- Python `str(status_code).startswith('2')`: the leading decimal
digit of the status code is 2. -/
def status_code_is_2xx (code : Nat) : Bool :=
  decide ((Nat.toDigits 10 code).head? = some '2')

/-- Python dict insertion for `row_obj[col["name"]] = val` inside
`write_row`: replace when the key exists, append otherwise. -/
def row_obj_insert (d : Row) (k : String) (v : PValue) : Row :=
  if List.any d (fun p => decide (p.1 = k)) then
    List.map (fun p => if p.1 = k then (k, v) else p) d
  else d ++ [(k, v)]

/-- The row object built at the top of `PowerBIExporter.write_row`:
`for (col, val) in zip(self.schema["columns"], row): row_obj[col["name"]] = val`.
Python `zip` truncates to the shorter sequence. -/
def build_row_obj (schema : List Column) (row : List PValue) : Row :=
  (schema.zip row).foldl (fun d cv => row_obj_insert d cv.1.name cv.2) []

/-- Exporter session state: the row buffer (`self.row_buffer["rows"]`),
the row counter (`self.row_index`), plus instrumentation of the
observable effects: `flushes` records each batch POSTed to the
table-rows endpoint, `warnings` counts the warning lines printed for
non-2xx insert responses. -/
structure ExpState where
  rows : List Row
  row_index : Nat
  flushes : List (List Row)
  warnings : Nat
deriving DecidableEq, Repr

/-- The state of a freshly constructed exporter. -/
def initExpState : ExpState := ⟨[], 0, [], 0⟩

/-- `PowerBIExporter.write_row`. `bs` is `self.pbi_buffer_size`;
`resp` is the response the service would return to the flush POST, if
one fires. The flush path POSTs the whole buffer, prints the record
count, and on a non-2xx status prints a warning that includes
`response.json()` — which raises (uncaught) when the body is not JSON,
aborting the call before `self.row_index` is incremented. No path
raises on the status itself. -/
def write_row (bs : Nat) (schema : List Column) (row : List PValue)
    (resp : Response) (s : ExpState) : Except PbiError ExpState :=
  let row_obj := build_row_obj schema row
  let buf := s.rows ++ [row_obj]
  if bs < buf.length then
    if status_code_is_2xx resp.status then
      .ok ⟨[], s.row_index + 1, s.flushes ++ [buf], s.warnings⟩
    else
      match resp.json with
      | some _ => .ok ⟨[], s.row_index + 1, s.flushes ++ [buf], s.warnings + 1⟩
      | none => .error .jsonDecodeError
  else .ok ⟨buf, s.row_index + 1, s.flushes, s.warnings⟩

/-- The effect of `write_row` when the flush response (if any) is 2xx:
the common specialisation used to reason about successful runs. -/
def write_rowT (bs : Nat) (schema : List Column) (row : List PValue)
    (s : ExpState) : ExpState :=
  let buf := s.rows ++ [build_row_obj schema row]
  if bs < buf.length then ⟨[], s.row_index + 1, s.flushes ++ [buf], s.warnings⟩
  else ⟨buf, s.row_index + 1, s.flushes, s.warnings⟩

/-- A sequence of `write_row` calls, each supplying the row and the
response its flush (if any) would receive. -/
def run_write_rows (bs : Nat) (schema : List Column) :
    List (List PValue × Response) → ExpState → Except PbiError ExpState
  | [], s => .ok s
  | i :: rest, s =>
      match write_row bs schema i.1 i.2 s with
      | .error e => .error e
      | .ok s1 => run_write_rows bs schema rest s1

/-- The 2xx specialisation of `run_write_rows`. -/
def run_write_rowsT (bs : Nat) (schema : List Column) :
    List (List PValue) → ExpState → ExpState
  | [], s => s
  | row :: rest, s => run_write_rowsT bs schema rest (write_rowT bs schema row s)

/-- `PowerBIExporter.close`: POST the remaining buffer when non-empty
(same response handling as the `write_row` flush, including the
uncaught `response.json()` on a non-JSON non-2xx body), then print the
completion banner. The buffer field itself is not cleared by the
source. -/
def exporter_close (resp : Response) (s : ExpState) : Except PbiError ExpState :=
  if 0 < s.rows.length then
    if status_code_is_2xx resp.status then
      .ok { s with flushes := s.flushes ++ [s.rows] }
    else
      match resp.json with
      | some _ => .ok { s with flushes := s.flushes ++ [s.rows], warnings := s.warnings + 1 }
      | none => .error .jsonDecodeError
  else .ok s

/-- Observable outcome of a successful `PowerBIExporter.open`:
the ids deleted, the creation payload POSTed (when one was), and the
dataset id bound to `self.dsid`. -/
structure OpenOutcome where
  deleted : List String
  created : Option PBIPayload
  boundId : String
deriving DecidableEq, Repr

/-- `PowerBIExporter.open`. `existing` is the dataset list the service
reports (the exporter always queries the default workspace);
`createId` is `response.get("id")` of the creation call, and the
deletion calls are modelled as succeeding. Both `sys.exit("Dataset
creation error")` sites are mapped to their taxonomy classes: dataset
creation failure under overwrite, and the configuration error when no
dataset exists and overwrite is off. -/
def exporter_open (overwrite : Bool) (pbi_dataset : String) (schema : List Column)
    (existing : List Dataset) (createId : Option String) :
    Except PbiError OpenOutcome :=
  if overwrite then
    let datasets := get_dataset_by_name pbi_dataset (some existing)
    match createId with
    | some i =>
        .ok ⟨datasets, some (create_dataset_payload pbi_dataset DEFAULT_PBI_TABLE schema), i⟩
    | none => .error (.datasetCreationError "Dataset creation error")
  else
    match get_dataset_by_name pbi_dataset (some existing) with
    | d :: _ => .ok ⟨[], none, d⟩
    | [] => .error (.configurationError "Dataset creation error")

/-! ## Helper lemmas -/

theorem get_dataset_by_name_foldl (name : String) (ds : List Dataset) (acc : List String) :
    ds.foldl (fun ret d => if d.name = name then ret ++ [d.id] else ret) acc =
      acc ++ (ds.filter (fun d => decide (d.name = name))).map Dataset.id := by
  induction ds generalizing acc with
  | nil => simp
  | cons d t ih =>
      by_cases h : d.name = name
      · simp [List.foldl_cons, h, ih, List.filter_cons]
      · simp [List.foldl_cons, h, ih, List.filter_cons]

theorem get_dataset_by_name_eq (name : String) (ds : List Dataset) :
    get_dataset_by_name name (some ds) =
      (ds.filter (fun d => decide (d.name = name))).map Dataset.id := by
  simpa [get_dataset_by_name] using get_dataset_by_name_foldl name ds []

/-! ## Claim C4 -/

/-- Claim C4: for every schema, the dataset-creation payload contains
exactly as many columns as the schema, in the same order, each column
mapped through the fixed `fieldSetterMap` table with default
`"String"`; the table entries are exactly those of the source dict and
every unrecognized type maps to `"String"`. -/
theorem create_dataset_payload_columns :
    ∀ (ds_name tbl : String) (schema : List Column),
      (create_dataset_payload ds_name tbl schema).tables =
        [⟨tbl, create_dataset_columns schema⟩] ∧
      (create_dataset_columns schema).length = schema.length ∧
      List.Forall₂
        (fun (c : Column) (pc : PBIColumn) =>
          pc.name = c.name ∧ pc.dataType = dict_get fieldSetterMap c.type "String")
        schema (create_dataset_columns schema) ∧
      (dict_get fieldSetterMap "boolean" "String" = "Boolean" ∧
       dict_get fieldSetterMap "tinyint" "String" = "Int64" ∧
       dict_get fieldSetterMap "smallint" "String" = "Int64" ∧
       dict_get fieldSetterMap "int" "String" = "Int64" ∧
       dict_get fieldSetterMap "bigint" "String" = "Int64" ∧
       dict_get fieldSetterMap "float" "String" = "Double" ∧
       dict_get fieldSetterMap "double" "String" = "Double" ∧
       dict_get fieldSetterMap "date" "String" = "dateTime" ∧
       dict_get fieldSetterMap "string" "String" = "String" ∧
       dict_get fieldSetterMap "array" "String" = "String" ∧
       dict_get fieldSetterMap "map" "String" = "String" ∧
       dict_get fieldSetterMap "object" "String" = "String") ∧
      (∀ t, t ∉ fieldSetterMap.map Prod.fst →
        dict_get fieldSetterMap t "String" = "String") := by
  intro ds_name tbl schema
  refine ⟨rfl, by simp [create_dataset_columns], ?_, by decide, ?_⟩
  · induction schema with
    | nil => exact List.Forall₂.nil
    | cons c t ih =>
        exact List.Forall₂.cons ⟨rfl, rfl⟩ ih
  · intro t ht
    unfold dict_get
    have hnone : fieldSetterMap.find? (fun p => decide (p.1 = t)) = none := by
      rw [List.find?_eq_none]
      intro p hp
      simp only [decide_eq_true_eq]
      intro hEq
      exact ht (hEq ▸ List.mem_map_of_mem Prod.fst hp)
    rw [hnone]

/-- Claim C4 witness: the theorem applied at a concrete schema with an
unrecognized type. -/
theorem create_dataset_payload_columns_witness :
    (create_dataset_columns [⟨"amt", "double"⟩, ⟨"day", "date"⟩, ⟨"g", "geopoint"⟩]).length = 3 ∧
    dict_get fieldSetterMap "geopoint" "String" = "String" :=
  ⟨(create_dataset_payload_columns "Sales" "dss-data"
      [⟨"amt", "double"⟩, ⟨"day", "date"⟩, ⟨"g", "geopoint"⟩]).2.1,
   (create_dataset_payload_columns "Sales" "dss-data"
      [⟨"amt", "double"⟩, ⟨"day", "date"⟩, ⟨"g", "geopoint"⟩]).2.2.2.2 "geopoint" (by decide)⟩

/-! ## Claim C5 -/

/-- Claim C5: `get_dataset_by_name` returns exactly the ids of the
datasets whose name equals the query under case-sensitive comparison;
the result is non-empty whenever some dataset matches and empty when
none does. -/
theorem get_dataset_by_name_exact_match :
    ∀ (name : String) (ds : List Dataset),
      get_dataset_by_name name (some ds) =
        (ds.filter (fun d => decide (d.name = name))).map Dataset.id ∧
      ((∃ d ∈ ds, d.name = name) → get_dataset_by_name name (some ds) ≠ []) ∧
      ((∀ d ∈ ds, d.name ≠ name) → get_dataset_by_name name (some ds) = []) := by
  intro name ds
  refine ⟨get_dataset_by_name_eq name ds, ?_, ?_⟩
  · rintro ⟨d, hd, hname⟩
    rw [get_dataset_by_name_eq]
    have hmem : d ∈ ds.filter (fun d => decide (d.name = name)) :=
      List.mem_filter.mpr ⟨hd, by simp [hname]⟩
    exact List.ne_nil_of_mem (List.mem_map_of_mem Dataset.id hmem)
  · intro h
    rw [get_dataset_by_name_eq]
    have hfil : ds.filter (fun d => decide (d.name = name)) = [] := by
      rw [List.filter_eq_nil_iff]
      intro d hd
      simp [h d hd]
    simp [hfil]

/-- Claim C5 witness: concrete listing with a case-sensitive near-miss
and two exact matches, and a query with no match. -/
theorem get_dataset_by_name_exact_match_witness :
    get_dataset_by_name "Sales"
        (some [⟨"Sales", "id1"⟩, ⟨"sales", "id2"⟩, ⟨"Sales", "id3"⟩]) ≠ [] ∧
    get_dataset_by_name "Budget"
        (some [⟨"Sales", "id1"⟩, ⟨"sales", "id2"⟩, ⟨"Sales", "id3"⟩]) = [] :=
  ⟨(get_dataset_by_name_exact_match "Sales"
      [⟨"Sales", "id1"⟩, ⟨"sales", "id2"⟩, ⟨"Sales", "id3"⟩]).2.1
      ⟨⟨"Sales", "id1"⟩, by decide, rfl⟩,
   (get_dataset_by_name_exact_match "Budget"
      [⟨"Sales", "id1"⟩, ⟨"sales", "id2"⟩, ⟨"Sales", "id3"⟩]).2.2 (by decide)⟩

/-! ## Exporter run lemmas -/

theorem write_row_2xx (bs : Nat) (schema : List Column) (row : List PValue)
    (resp : Response) (s : ExpState) (h : status_code_is_2xx resp.status = true) :
    write_row bs schema row resp s = Except.ok (write_rowT bs schema row s) := by
  unfold write_row write_rowT
  simp only [h]
  split <;> rfl

theorem run_write_rows_2xx (bs : Nat) (schema : List Column) :
    ∀ (inputs : List (List PValue × Response)) (s : ExpState),
      (∀ p ∈ inputs, status_code_is_2xx p.2.status = true) →
      run_write_rows bs schema inputs s =
        Except.ok (run_write_rowsT bs schema (inputs.map Prod.fst) s) := by
  intro inputs
  induction inputs with
  | nil => intro s _; rfl
  | cons i rest ih =>
      intro s h
      have h1 : status_code_is_2xx i.2.status = true := h i (by simp)
      simp only [run_write_rows, write_row_2xx bs schema i.1 i.2 s h1,
        List.map_cons, run_write_rowsT]
      exact ih _ (fun p hp => h p (List.mem_cons_of_mem i hp))

theorem run_write_rowsT_no_flush (bs : Nat) (schema : List Column) :
    ∀ (rows : List (List PValue)) (s : ExpState),
      s.rows.length + rows.length ≤ bs →
      run_write_rowsT bs schema rows s =
        ⟨s.rows ++ rows.map (build_row_obj schema), s.row_index + rows.length,
         s.flushes, s.warnings⟩ := by
  intro rows
  induction rows with
  | nil => intro s _; cases s; simp [run_write_rowsT]
  | cons r rest ih =>
      intro s h
      have hlen : ¬ bs < (s.rows ++ [build_row_obj schema r]).length := by
        simp only [List.length_append, List.length_cons, List.length_nil]
        simp only [List.length_cons] at h
        omega
      simp only [run_write_rowsT, write_rowT, if_neg hlen]
      rw [ih ⟨s.rows ++ [build_row_obj schema r], s.row_index + 1, s.flushes, s.warnings⟩
            (by simp only [List.length_append, List.length_cons, List.length_nil]
                simp only [List.length_cons] at h
                omega)]
      have h1 : (s.rows ++ [build_row_obj schema r]) ++ rest.map (build_row_obj schema)
          = s.rows ++ (r :: rest).map (build_row_obj schema) := by simp
      have h2 : s.row_index + 1 + rest.length = s.row_index + (r :: rest).length := by
        simp only [List.length_cons]
        omega
      rw [h1, h2]

theorem run_write_rowsT_append (bs : Nat) (schema : List Column)
    (a b : List (List PValue)) :
    ∀ s, run_write_rowsT bs schema (a ++ b) s =
      run_write_rowsT bs schema b (run_write_rowsT bs schema a s) := by
  induction a with
  | nil => intro s; rfl
  | cons r t ih =>
      intro s
      simp only [List.cons_append, run_write_rowsT]
      exact ih _

theorem run_write_rowsT_no_flush_init (bs : Nat) (schema : List Column)
    (rows : List (List PValue)) (h : rows.length ≤ bs) :
    run_write_rowsT bs schema rows initExpState =
      ⟨rows.map (build_row_obj schema), rows.length, [], 0⟩ := by
  have := run_write_rowsT_no_flush bs schema rows initExpState
    (by simpa [initExpState] using h)
  simpa [initExpState] using this

theorem run_write_rowsT_exact_flush (bs : Nat) (schema : List Column)
    (rows : List (List PValue)) (h : rows.length = bs + 1) :
    run_write_rowsT bs schema rows initExpState =
      ⟨[], bs + 1, [rows.map (build_row_obj schema)], 0⟩ := by
  have hne : rows ≠ [] := by
    intro hn
    rw [hn] at h
    simp at h
  have hsplit := List.dropLast_append_getLast hne
  have hfrontlen : rows.dropLast.length = bs := by
    rw [List.length_dropLast, h]
    rfl
  rw [← hsplit, run_write_rowsT_append,
    run_write_rowsT_no_flush_init bs schema rows.dropLast (le_of_eq hfrontlen)]
  have hflt : bs < ((rows.dropLast.map (build_row_obj schema)) ++
      [build_row_obj schema (rows.getLast hne)]).length := by
    rw [List.length_append, List.length_map, hfrontlen]
    simp
  simp only [run_write_rowsT, write_rowT, if_pos hflt]
  have hbuf : rows.dropLast.map (build_row_obj schema) ++
      [build_row_obj schema (rows.getLast hne)] = rows.map (build_row_obj schema) := by
    have h3 : [build_row_obj schema (rows.getLast hne)]
        = List.map (build_row_obj schema) [rows.getLast hne] := rfl
    rw [h3, ← List.map_append, hsplit]
  rw [List.nil_append, hbuf, hfrontlen, hsplit]

/-! ## Claim C2 -/

/-- Claim C2: for every buffer capacity and every sequence of
`write_row` calls with 2xx insert responses — writing exactly
capacity + 1 rows triggers exactly one flush of capacity + 1 rows and
leaves the buffer empty; writing at most capacity rows triggers no
flush; `close` after a partial batch flushes exactly that batch once,
and performs no insertion when the buffer is empty. -/
theorem row_buffering_flush_policy :
    ∀ (bs : Nat) (schema : List Column) (inputs : List (List PValue × Response)),
      (∀ p ∈ inputs, status_code_is_2xx p.2.status = true) →
      ((inputs.length = bs + 1 →
          ∃ s, run_write_rows bs schema inputs initExpState = Except.ok s ∧
            s.flushes.length = 1 ∧ (∀ b ∈ s.flushes, b.length = bs + 1) ∧
            s.rows = []) ∧
       (inputs.length ≤ bs →
          ∃ s, run_write_rows bs schema inputs initExpState = Except.ok s ∧
            s.flushes = [] ∧ s.rows.length = inputs.length) ∧
       (∀ resp : Response, status_code_is_2xx resp.status = true →
          0 < inputs.length → inputs.length ≤ bs →
          ∃ s s', run_write_rows bs schema inputs initExpState = Except.ok s ∧
            exporter_close resp s = Except.ok s' ∧
            s'.flushes = [s.rows] ∧ s.rows.length = inputs.length) ∧
       (∀ (resp : Response) (s : ExpState), s.rows = [] →
          exporter_close resp s = Except.ok s)) := by
  intro bs schema inputs h2
  have hrun := run_write_rows_2xx bs schema inputs initExpState h2
  refine ⟨?_, ?_, ?_, ?_⟩
  · intro hlen
    have hmap : (inputs.map Prod.fst).length = bs + 1 := by simpa using hlen
    rw [run_write_rowsT_exact_flush bs schema _ hmap] at hrun
    refine ⟨_, hrun, rfl, ?_, rfl⟩
    intro b hb
    rw [List.mem_singleton] at hb
    subst hb
    simpa using hmap
  · intro hlen
    have hmap : (inputs.map Prod.fst).length ≤ bs := by simpa using hlen
    rw [run_write_rowsT_no_flush_init bs schema _ hmap] at hrun
    exact ⟨_, hrun, rfl, by simp⟩
  · intro resp hresp h0 hlen
    have hmap : (inputs.map Prod.fst).length ≤ bs := by simpa using hlen
    rw [run_write_rowsT_no_flush_init bs schema _ hmap] at hrun
    have h0' : 0 < ((inputs.map Prod.fst).map (build_row_obj schema)).length := by
      simpa using h0
    have hclose : exporter_close resp
        ⟨(inputs.map Prod.fst).map (build_row_obj schema),
          (inputs.map Prod.fst).length, [], 0⟩ =
        Except.ok ⟨(inputs.map Prod.fst).map (build_row_obj schema),
          (inputs.map Prod.fst).length,
          [(inputs.map Prod.fst).map (build_row_obj schema)], 0⟩ := by
      simp only [exporter_close]
      rw [if_pos h0', hresp]
      simp
    exact ⟨_, _, hrun, hclose, rfl, by simp⟩
  · intro resp s hs
    simp [exporter_close, hs]

/-- Claim C2 witness: the spec §8 scenario — capacity 2, one double
column, three rows with 2xx responses: one flush of three rows, empty
buffer; and `close` on an empty buffer inserts nothing. -/
theorem row_buffering_flush_policy_witness :
    (∃ s, run_write_rows 2 [⟨"amt", "double"⟩]
        [([PValue.str "1.0"], ⟨200, "", some (JVal.o [])⟩),
         ([PValue.str "2.0"], ⟨200, "", some (JVal.o [])⟩),
         ([PValue.str "3.0"], ⟨200, "", some (JVal.o [])⟩)] initExpState =
          Except.ok s ∧
        s.flushes.length = 1 ∧ (∀ b ∈ s.flushes, b.length = 2 + 1) ∧
        s.rows = []) ∧
    exporter_close ⟨200, "", some (JVal.o [])⟩ initExpState =
      Except.ok initExpState :=
  ⟨(row_buffering_flush_policy 2 [⟨"amt", "double"⟩]
      [([PValue.str "1.0"], ⟨200, "", some (JVal.o [])⟩),
       ([PValue.str "2.0"], ⟨200, "", some (JVal.o [])⟩),
       ([PValue.str "3.0"], ⟨200, "", some (JVal.o [])⟩)]
      (by decide)).1 rfl,
   (row_buffering_flush_policy 2 [⟨"amt", "double"⟩]
      [([PValue.str "1.0"], ⟨200, "", some (JVal.o [])⟩),
       ([PValue.str "2.0"], ⟨200, "", some (JVal.o [])⟩),
       ([PValue.str "3.0"], ⟨200, "", some (JVal.o [])⟩)]
      (by decide)).2.2.2 ⟨200, "", some (JVal.o [])⟩ initExpState rfl⟩

/-! ## Claim C7 -/

theorem write_row_cases (bs : Nat) (schema : List Column) (row : List PValue)
    (resp : Response) (s s' : ExpState)
    (hok : write_row bs schema row resp s = Except.ok s') :
    (s' = ⟨[], s.row_index + 1, s.flushes ++ [s.rows ++ [build_row_obj schema row]],
        s.warnings⟩ ∧ bs < s.rows.length + 1) ∨
    (s' = ⟨[], s.row_index + 1, s.flushes ++ [s.rows ++ [build_row_obj schema row]],
        s.warnings + 1⟩ ∧ bs < s.rows.length + 1) ∨
    (s' = ⟨s.rows ++ [build_row_obj schema row], s.row_index + 1, s.flushes,
        s.warnings⟩ ∧ ¬ bs < s.rows.length + 1) := by
  obtain ⟨st, ct, js⟩ := resp
  simp only [write_row] at hok
  by_cases hlt : bs < (s.rows ++ [build_row_obj schema row]).length
  · rw [if_pos hlt] at hok
    by_cases h2 : status_code_is_2xx st = true
    · rw [if_pos h2] at hok
      injection hok with h1
      exact Or.inl ⟨h1.symm, by simpa using hlt⟩
    · rw [if_neg h2] at hok
      cases js with
      | some j =>
          have hok2 : (Except.ok ⟨[], s.row_index + 1,
              s.flushes ++ [s.rows ++ [build_row_obj schema row]], s.warnings + 1⟩ :
              Except PbiError ExpState) = Except.ok s' := hok
          injection hok2 with h1
          exact Or.inr (Or.inl ⟨h1.symm, by simpa using hlt⟩)
      | none => exact absurd hok (by simp)
  · rw [if_neg hlt] at hok
    injection hok with h1
    exact Or.inr (Or.inr ⟨h1.symm, by simpa using hlt⟩)

theorem write_row_good (bs : Nat) (schema : List Column) (row : List PValue)
    (resp : Response) (s s' : ExpState)
    (hok : write_row bs schema row resp s = Except.ok s')
    (hinv : s.rows.length ≤ bs ∧ ∀ b ∈ s.flushes, b.length = bs + 1) :
    s'.rows.length ≤ bs ∧ ∀ b ∈ s'.flushes, b.length = bs + 1 := by
  obtain ⟨hr, hf⟩ := hinv
  rcases write_row_cases bs schema row resp s s' hok with
    ⟨h1, hlt⟩ | ⟨h1, hlt⟩ | ⟨h1, hlt⟩ <;> subst h1
  · refine ⟨by simp, ?_⟩
    intro b hb
    simp only [List.mem_append, List.mem_singleton] at hb
    rcases hb with hb | hb
    · exact hf b hb
    · subst hb
      simp only [List.length_append, List.length_cons, List.length_nil]
      omega
  · refine ⟨by simp, ?_⟩
    intro b hb
    simp only [List.mem_append, List.mem_singleton] at hb
    rcases hb with hb | hb
    · exact hf b hb
    · subst hb
      simp only [List.length_append, List.length_cons, List.length_nil]
      omega
  · refine ⟨?_, hf⟩
    simp only [List.length_append, List.length_cons, List.length_nil]
    omega

theorem run_write_rows_good (bs : Nat) (schema : List Column) :
    ∀ (inputs : List (List PValue × Response)) (s s' : ExpState),
      run_write_rows bs schema inputs s = Except.ok s' →
      (s.rows.length ≤ bs ∧ ∀ b ∈ s.flushes, b.length = bs + 1) →
      (s'.rows.length ≤ bs ∧ ∀ b ∈ s'.flushes, b.length = bs + 1) := by
  intro inputs
  induction inputs with
  | nil =>
      intro s s' h hinv
      injection h with h1
      subst h1
      exact hinv
  | cons i rest ih =>
      intro s s' h hinv
      unfold run_write_rows at h
      cases hw : write_row bs schema i.1 i.2 s with
      | error e =>
          rw [hw] at h
          exact absurd h (by simp)
      | ok s1 =>
          rw [hw] at h
          exact ih s1 s' h (write_row_good bs schema i.1 i.2 s s1 hw hinv)

/-- Claim C7: across every sequence of `write_row` calls starting from
a fresh exporter, every batch flushed by `write_row` has length exactly
capacity + 1 (and the retained buffer never exceeds the capacity), and
the row index counter increments by one on every `write_row`, whether
or not a flush occurred. -/
theorem flush_size_and_row_index_invariant :
    (∀ (bs : Nat) (schema : List Column) (inputs : List (List PValue × Response))
        (s' : ExpState),
        run_write_rows bs schema inputs initExpState = Except.ok s' →
        (∀ b ∈ s'.flushes, b.length = bs + 1) ∧ s'.rows.length ≤ bs) ∧
    (∀ (bs : Nat) (schema : List Column) (row : List PValue) (resp : Response)
        (s s' : ExpState),
        write_row bs schema row resp s = Except.ok s' →
        s'.row_index = s.row_index + 1) := by
  constructor
  · intro bs schema inputs s' h
    have hg := run_write_rows_good bs schema inputs initExpState s' h
      ⟨by simp [initExpState], by simp [initExpState]⟩
    exact ⟨hg.2, hg.1⟩
  · intro bs schema row resp s s' h
    rcases write_row_cases bs schema row resp s s' h with
      ⟨h1, _⟩ | ⟨h1, _⟩ | ⟨h1, _⟩ <;> subst h1 <;> rfl

/-- Claim C7 witness: a single write at capacity 0 flushes a batch of
exactly one row, and the row index increments. -/
theorem flush_size_and_row_index_invariant_witness :
    ((∀ b ∈ (ExpState.mk [] 1 [[[("a", PValue.str "x")]]] 0).flushes,
        b.length = 0 + 1) ∧
      (ExpState.mk [] 1 [[[("a", PValue.str "x")]]] 0).rows.length ≤ 0) ∧
    (ExpState.mk [] 1 [[[("a", PValue.str "x")]]] 0).row_index = 0 + 1 :=
  ⟨flush_size_and_row_index_invariant.1 0 [⟨"a", "string"⟩]
      [([PValue.str "x"], ⟨200, "", some (JVal.o [])⟩)]
      ⟨[], 1, [[[("a", PValue.str "x")]]], 0⟩ rfl,
   flush_size_and_row_index_invariant.2 0 [⟨"a", "string"⟩] [PValue.str "x"]
      ⟨200, "", some (JVal.o [])⟩ initExpState
      ⟨[], 1, [[[("a", PValue.str "x")]]], 0⟩ rfl⟩

/-! ## Claim C1 -/

/-- Claim C1 counterexample: a flush during `write_row` that receives a
non-2xx response (HTTP 400 with a JSON body) does not raise: the call
returns normally with the warning counted and the row index advanced,
so the export job continues. This refutes the claim that a non-2xx
response from the table-rows endpoint raises an `ApiError` terminating
the job. -/
theorem write_row_non2xx_counterexample :
    write_row 0 [⟨"a", "string"⟩] [PValue.str "v"]
        ⟨400, "err-body", some (JVal.o [])⟩ initExpState =
      Except.ok ⟨[], 1, [[[("a", PValue.str "v")]]], 1⟩ := by
  rfl

/-- Claim C1 as amended: a non-2xx response to a flush performed by
`write_row` or `close` is merely logged (warning counter) and the
export continues; only the service-client insert path
(`post_table_row`, unused by the exporter flush) raises `ApiError` on
a status of 400 or above. -/
theorem write_row_non2xx_logs_and_continues :
    (∀ (bs : Nat) (schema : List Column) (row : List PValue) (resp : Response)
        (j : JVal) (s : ExpState),
        status_code_is_2xx resp.status = false → resp.json = some j →
        bs < s.rows.length + 1 →
        write_row bs schema row resp s =
          Except.ok ⟨[], s.row_index + 1,
            s.flushes ++ [s.rows ++ [build_row_obj schema row]], s.warnings + 1⟩) ∧
    (∀ (resp : Response) (j : JVal) (s : ExpState),
        status_code_is_2xx resp.status = false → resp.json = some j →
        0 < s.rows.length →
        exporter_close resp s =
          Except.ok ⟨s.rows, s.row_index, s.flushes ++ [s.rows], s.warnings + 1⟩) ∧
    (∀ r : Response, 400 ≤ r.status →
        post_table_row_check r =
          Except.error (PbiError.apiError (get_error_message r none []))) := by
  refine ⟨?_, ?_, ?_⟩
  · intro bs schema row resp j s hs hj hlt
    have hlen : bs < (s.rows ++ [build_row_obj schema row]).length := by
      simpa using hlt
    simp only [write_row, if_pos hlen, hs, hj]
    simp
  · intro resp j s hs hj h0
    simp only [exporter_close, if_pos h0, hs, hj]
    simp
  · intro r hr
    simp only [post_table_row_check, assert_response_ok, if_pos hr,
      handle_exception_message, if_pos]

/-- Claim C1 witness: the amended theorem applied at concrete inputs —
a 500 flush response with a JSON body during `write_row`, during
`close`, and a 404 on the client insert path. -/
theorem write_row_non2xx_witness :
    write_row 1 [⟨"a", "string"⟩] [PValue.null]
        ⟨500, "boom", some (JVal.s "x")⟩ ⟨[[("a", PValue.bool true)]], 1, [], 0⟩ =
      Except.ok ⟨[], 2, [[[("a", PValue.bool true)], [("a", PValue.null)]]], 1⟩ ∧
    exporter_close ⟨500, "boom", some (JVal.s "x")⟩
        ⟨[[("a", PValue.null)]], 1, [], 0⟩ =
      Except.ok ⟨[[("a", PValue.null)]], 1, [[[("a", PValue.null)]]], 1⟩ ∧
    post_table_row_check ⟨404, "nf", none⟩ =
      Except.error (PbiError.apiError "Error 404: nf") :=
  ⟨write_row_non2xx_logs_and_continues.1 1 [⟨"a", "string"⟩] [PValue.null]
      ⟨500, "boom", some (JVal.s "x")⟩ (JVal.s "x")
      ⟨[[("a", PValue.bool true)]], 1, [], 0⟩ rfl rfl (by decide),
   write_row_non2xx_logs_and_continues.2.1 ⟨500, "boom", some (JVal.s "x")⟩
      (JVal.s "x") ⟨[[("a", PValue.null)]], 1, [], 0⟩ rfl rfl (by decide),
   write_row_non2xx_logs_and_continues.2.2 ⟨404, "nf", none⟩ (by decide)⟩

/-! ## Claim C10 -/

theorem row_obj_insert_fresh (d : Row) (k : String) (v : PValue)
    (h : k ∉ d.map Prod.fst) : row_obj_insert d k v = d ++ [(k, v)] := by
  have hfalse : List.any d (fun p => decide (p.1 = k)) = false := by
    rw [List.any_eq_false]
    intro p hp
    simp only [decide_eq_true_eq]
    intro hEq
    exact h (hEq ▸ List.mem_map_of_mem Prod.fst hp)
  simp [row_obj_insert, hfalse]

theorem build_foldl_fresh :
    ∀ (l : List (Column × PValue)) (acc : Row),
      (l.map (fun cv => cv.1.name)).Nodup →
      (∀ cv ∈ l, cv.1.name ∉ acc.map Prod.fst) →
      l.foldl (fun d cv => row_obj_insert d cv.1.name cv.2) acc =
        acc ++ l.map (fun cv => (cv.1.name, cv.2)) := by
  intro l
  induction l with
  | nil => intro acc _ _; simp
  | cons cv t ih =>
      intro acc hnodup hfresh
      rw [List.map_cons, List.nodup_cons] at hnodup
      have hnd := hnodup
      simp only [List.foldl_cons]
      rw [row_obj_insert_fresh acc cv.1.name cv.2 (hfresh cv (by simp))]
      rw [ih (acc ++ [(cv.1.name, cv.2)]) hnd.2 ?_]
      · simp
      · intro q hq
        simp only [List.map_append, List.mem_append]
        rintro (hmem | hmem)
        · exact hfresh q (List.mem_cons_of_mem cv hq) hmem
        · have hq1 : q.1.name = cv.1.name := by simpa using hmem
          exact hnd.1 (hq1 ▸ List.mem_map_of_mem (fun cv => cv.1.name) hq)

theorem zip_fst_names :
    ∀ (schema : List Column) (row : List PValue),
      (schema.zip row).map (fun cv => cv.1.name) =
        (schema.map Column.name).take row.length := by
  intro schema
  induction schema with
  | nil => intro row; simp
  | cons c t ih =>
      intro row
      cases row with
      | nil => simp
      | cons v vs => simp [List.zip_cons_cons, ih vs]

/-- Claim C10: `write_row` does not fail on a row tuple whose length
differs from the schema: the row object is the positional zip truncated
to the shorter of the two lengths (for pairwise-distinct column names),
extra values are dropped and missing columns are absent; the call
proceeds normally (here shown for the non-flushing case). -/
theorem write_row_zip_truncation :
    ∀ (schema : List Column) (row : List PValue),
      (schema.map Column.name).Nodup →
      build_row_obj schema row =
        (schema.zip row).map (fun cv => (cv.1.name, cv.2)) ∧
      (build_row_obj schema row).length = min schema.length row.length ∧
      (build_row_obj schema row).map Prod.fst =
        (schema.map Column.name).take row.length ∧
      (∀ (bs : Nat) (resp : Response) (s : ExpState),
        ¬ bs < s.rows.length + 1 →
        write_row bs schema row resp s =
          Except.ok ⟨s.rows ++ [build_row_obj schema row], s.row_index + 1,
            s.flushes, s.warnings⟩) := by
  intro schema row hnodup
  have hzn : ((schema.zip row).map (fun cv => cv.1.name)).Nodup := by
    rw [zip_fst_names]
    exact (List.take_sublist _ _).nodup hnodup
  have heq : build_row_obj schema row =
      (schema.zip row).map (fun cv => (cv.1.name, cv.2)) := by
    unfold build_row_obj
    rw [build_foldl_fresh (schema.zip row) [] hzn (by simp)]
    simp
  refine ⟨heq, ?_, ?_, ?_⟩
  · rw [heq]
    simp
  · rw [heq]
    have hcomp : ((schema.zip row).map (fun cv => (cv.1.name, cv.2))).map Prod.fst
        = (schema.zip row).map (fun cv => cv.1.name) := by
      rw [List.map_map]
      rfl
    rw [hcomp, zip_fst_names]
  · intro bs resp s hnlt
    have hlen : ¬ bs < (s.rows ++ [build_row_obj schema row]).length := by
      simpa using hnlt
    simp only [write_row, if_neg hlen]

/-- Claim C10 witness: a two-column schema with a three-value row —
the third value is dropped — and the same schema with a one-value row,
buffered without failure. -/
theorem write_row_zip_truncation_witness :
    build_row_obj [⟨"a", "int"⟩, ⟨"b", "string"⟩]
        [PValue.str "x", PValue.str "y", PValue.str "z"] =
      [("a", PValue.str "x"), ("b", PValue.str "y")] ∧
    write_row 5 [⟨"a", "int"⟩, ⟨"b", "string"⟩] [PValue.str "x"]
        ⟨200, "", some (JVal.o [])⟩ initExpState =
      Except.ok ⟨[[("a", PValue.str "x")]], 1, [], 0⟩ :=
  ⟨(write_row_zip_truncation [⟨"a", "int"⟩, ⟨"b", "string"⟩]
      [PValue.str "x", PValue.str "y", PValue.str "z"] (by decide)).1,
   (write_row_zip_truncation [⟨"a", "int"⟩, ⟨"b", "string"⟩]
      [PValue.str "x"] (by decide)).2.2.2 5 ⟨200, "", some (JVal.o [])⟩
      initExpState (by decide)⟩

/-! ## Claim C3 -/

/-- Claim C3 counterexample: with an empty-string workspace name the
code does make the network call and raises (here with a workspace list
containing one ordinarily named group), instead of returning `None`
without a network call as the claim states for the empty name. -/
theorem resolve_workspace_empty_counterexample :
    get_group_id_by_name (some "") [⟨"Team A", "gid-a"⟩] =
      (Except.error (PbiError.workspaceNotFound (workspace_not_found_message "")),
       true) := by
  rfl

/-- Claim C3 as amended: `get_group_id_by_name` returns `None` without
a network call when the workspace name is absent (Python `None`) or
equals the sentinel `My workspace`; any other name — the empty string
included — triggers the workspace-list fetch, raises
`WorkspaceNotFound` when no case-insensitive match exists, and returns
the matched group id otherwise. -/
theorem resolve_workspace_id_behaviour :
    ∀ (groups : List PbiGroup),
      get_group_id_by_name none groups = (Except.ok none, false) ∧
      get_group_id_by_name (some "My workspace") groups = (Except.ok none, false) ∧
      (∀ w, w ≠ "My workspace" →
        (∀ g ∈ groups, str_lower g.name ≠ str_lower w) →
        get_group_id_by_name (some w) groups =
          (Except.error (PbiError.workspaceNotFound (workspace_not_found_message w)),
           true)) ∧
      (∀ w g, w ≠ "My workspace" →
        filter_group_by_name groups w = some g →
        get_group_id_by_name (some w) groups = (Except.ok (some g.id), true)) := by
  intro groups
  refine ⟨rfl, rfl, ?_, ?_⟩
  · intro w hw hnone
    have hfind : filter_group_by_name groups w = none := by
      rw [filter_group_by_name, List.find?_eq_none]
      intro g hg
      simp only [decide_eq_true_eq]
      exact hnone g hg
    simp only [get_group_id_by_name, if_neg hw, hfind]
  · intro w g hw hfind
    simp only [get_group_id_by_name, if_neg hw, hfind]

/-- Claim C3 witness: the amended theorem applied at a concrete
workspace list, covering the sentinel, the absent name, a
case-insensitive hit and a miss. -/
theorem resolve_workspace_id_behaviour_witness :
    get_group_id_by_name none [⟨"Team A", "gid-a"⟩] = (Except.ok none, false) ∧
    get_group_id_by_name (some "My workspace") [⟨"Team A", "gid-a"⟩] =
      (Except.ok none, false) ∧
    get_group_id_by_name (some "Marketing") [⟨"Team A", "gid-a"⟩] =
      (Except.error
        (PbiError.workspaceNotFound (workspace_not_found_message "Marketing")),
       true) ∧
    get_group_id_by_name (some "TEAM a") [⟨"Team A", "gid-a"⟩] =
      (Except.ok (some "gid-a"), true) :=
  ⟨(resolve_workspace_id_behaviour [⟨"Team A", "gid-a"⟩]).1,
   (resolve_workspace_id_behaviour [⟨"Team A", "gid-a"⟩]).2.1,
   (resolve_workspace_id_behaviour [⟨"Team A", "gid-a"⟩]).2.2.1 "Marketing"
      (by decide) (by decide),
   (resolve_workspace_id_behaviour [⟨"Team A", "gid-a"⟩]).2.2.2 "TEAM a"
      ⟨"Team A", "gid-a"⟩ (by decide) (by decide)⟩

/-! ## Claim C6 -/

/-- Claim C6: with overwrite enabled, `open` deletes every dataset
whose name matches the configured name, then creates a fresh dataset
from the schema and binds the created id (failing when the creation
response has no id); with overwrite disabled, it binds the id of the
first name match and fails the job with a configuration error when no
dataset with that name exists. -/
theorem exporter_open_behaviour :
    ∀ (name : String) (schema : List Column) (existing : List Dataset)
      (newId : String) (cid : Option String),
      exporter_open true name schema existing (some newId) =
        Except.ok ⟨(existing.filter (fun d => decide (d.name = name))).map Dataset.id,
          some (create_dataset_payload name DEFAULT_PBI_TABLE schema), newId⟩ ∧
      exporter_open true name schema existing none =
        Except.error (PbiError.datasetCreationError "Dataset creation error") ∧
      (∀ d ds, get_dataset_by_name name (some existing) = d :: ds →
        exporter_open false name schema existing cid = Except.ok ⟨[], none, d⟩) ∧
      ((∀ d ∈ existing, d.name ≠ name) →
        exporter_open false name schema existing cid =
          Except.error (PbiError.configurationError "Dataset creation error")) := by
  intro name schema existing newId cid
  have hmatchform : exporter_open false name schema existing cid =
      (match get_dataset_by_name name (some existing) with
       | d :: _ => Except.ok ⟨[], none, d⟩
       | [] => Except.error (.configurationError "Dataset creation error")) := rfl
  refine ⟨?_, rfl, ?_, ?_⟩
  · have h1 : exporter_open true name schema existing (some newId) =
        Except.ok ⟨get_dataset_by_name name (some existing),
          some (create_dataset_payload name DEFAULT_PBI_TABLE schema), newId⟩ := rfl
    rw [h1, get_dataset_by_name_eq]
  · intro d ds hmatch
    rw [hmatchform, hmatch]
  · intro h
    have hnil : get_dataset_by_name name (some existing) = [] := by
      rw [get_dataset_by_name_eq]
      have hfil : existing.filter (fun d => decide (d.name = name)) = [] := by
        rw [List.filter_eq_nil_iff]
        intro d hd
        simp [h d hd]
      simp [hfil]
    rw [hmatchform, hnil]

/-- Claim C6 witness: the theorem applied at a concrete dataset
listing with two name matches — overwrite deletes both and binds the
created id; without overwrite the first match is bound; a query with
no match fails. -/
theorem exporter_open_behaviour_witness :
    exporter_open true "Sales" [⟨"amt", "double"⟩]
        [⟨"Sales", "id1"⟩, ⟨"Other", "id2"⟩, ⟨"Sales", "id3"⟩] (some "new-id") =
      Except.ok ⟨["id1", "id3"],
        some (create_dataset_payload "Sales" DEFAULT_PBI_TABLE [⟨"amt", "double"⟩]),
        "new-id"⟩ ∧
    exporter_open false "Sales" [⟨"amt", "double"⟩]
        [⟨"Sales", "id1"⟩, ⟨"Other", "id2"⟩, ⟨"Sales", "id3"⟩] none =
      Except.ok ⟨[], none, "id1"⟩ ∧
    exporter_open false "Budget" [⟨"amt", "double"⟩]
        [⟨"Sales", "id1"⟩, ⟨"Other", "id2"⟩, ⟨"Sales", "id3"⟩] none =
      Except.error (PbiError.configurationError "Dataset creation error") :=
  ⟨(exporter_open_behaviour "Sales" [⟨"amt", "double"⟩]
      [⟨"Sales", "id1"⟩, ⟨"Other", "id2"⟩, ⟨"Sales", "id3"⟩] "new-id" none).1,
   (exporter_open_behaviour "Sales" [⟨"amt", "double"⟩]
      [⟨"Sales", "id1"⟩, ⟨"Other", "id2"⟩, ⟨"Sales", "id3"⟩] "new-id" none).2.2.1
      "id1" ["id3"] rfl,
   (exporter_open_behaviour "Budget" [⟨"amt", "double"⟩]
      [⟨"Sales", "id1"⟩, ⟨"Other", "id2"⟩, ⟨"Sales", "id3"⟩] "new-id" none).2.2.2
      (by decide)⟩

/-! ## Claim C8 -/

/-- Claim C8: in the row value transformation, a registered
date-column value representing not-a-time converts to null and a
normal date converts to its ISO string; a registered boolean-column
value that is the not-a-number sentinel converts to null while `true`
and `false` pass through unchanged; and a date value lacking the
temporal interface makes `parse_formattable_values` raise the format
error. -/
theorem formattable_values_conversion :
    (∀ iso : String, iso ≠ "NaT" →
        date_convertion (PValue.date iso) = Except.ok (PValue.str iso)) ∧
    date_convertion (PValue.date "NaT") = Except.ok PValue.null ∧
    boolean_check PValue.nan = Except.ok PValue.null ∧
    (∀ b : Bool, boolean_check (PValue.bool b) = Except.ok (PValue.bool b)) ∧
    (∀ (iso : String) (b : Bool), iso ≠ "NaT" →
        parse_formattable_values ["d"] ["b"]
          [[("d", PValue.date iso), ("b", PValue.bool b)]] =
          Except.ok [[("d", PValue.str iso), ("b", PValue.bool b)]]) ∧
    parse_formattable_values ["d"] ["b"]
        [[("d", PValue.date "NaT"), ("b", PValue.nan)]] =
      Except.ok [[("d", PValue.null), ("b", PValue.null)]] ∧
    (∀ v : PValue, isoformat v = none →
        parse_formattable_values ["d"] [] [[("d", v)]] =
          Except.error (PbiError.formatError "Date is not correctly formatted")) := by
  refine ⟨?_, rfl, rfl, fun b => rfl, ?_, rfl, ?_⟩
  · intro iso h
    simp only [date_convertion, isoformat]
    rw [if_neg h]
  · intro iso b h
    have h1 : parse_formattable_values ["d"] ["b"]
        [[("d", PValue.date iso), ("b", PValue.bool b)]] =
        Except.ok [[("d", if iso = "NaT" then PValue.null else PValue.str iso),
          ("b", PValue.bool b)]] := rfl
    rw [h1, if_neg h]
  · intro v hv
    cases v with
    | date iso => simp [isoformat] at hv
    | bool b => rfl
    | nan => rfl
    | null => rfl
    | str s => rfl

/-- Claim C8 witness: a normal date, the NaT sentinel, the NaN
boolean sentinel, plain booleans, and a string in a registered date
column. -/
theorem formattable_values_conversion_witness :
    date_convertion (PValue.date "2020-01-01T00:00:00") =
      Except.ok (PValue.str "2020-01-01T00:00:00") ∧
    parse_formattable_values ["d"] ["b"]
        [[("d", PValue.date "2020-01-01T00:00:00"), ("b", PValue.bool false)]] =
      Except.ok [[("d", PValue.str "2020-01-01T00:00:00"),
        ("b", PValue.bool false)]] ∧
    parse_formattable_values ["d"] [] [[("d", PValue.str "oops")]] =
      Except.error (PbiError.formatError "Date is not correctly formatted") :=
  ⟨formattable_values_conversion.1 "2020-01-01T00:00:00" (by decide),
   formattable_values_conversion.2.2.2.2.1 "2020-01-01T00:00:00" false (by decide),
   formattable_values_conversion.2.2.2.2.2.2 (PValue.str "oops") rfl⟩

/-! ## Claim C9 -/

/-- Claim C9 counterexample: a 400 response whose JSON body carries a
nested error message `boom`, with no caller-supplied custom message,
extracted while a `while_trying` context is supplied
(`PowerBI.delete_dataset` does this): the produced message uses the
raw body and the nested message appears nowhere in it, contradicting
the claimed precedence custom, then nested `error.message`, then raw
body for every response with status 400 or above. -/
theorem error_message_precedence_counterexample :
    get_error_message
        ⟨400, "RAW", some (JVal.o [("error", JVal.o [("message", JVal.s "boom")])])⟩
        (some "deleting ds1") [] = "Error 400 while deleting ds1: RAW" ∧
    jval_render (extract_error_message_from_response
        ⟨400, "RAW", some (JVal.o [("error", JVal.o [("message", JVal.s "boom")])])⟩) =
      "boom" ∧
    ¬ ("boom".data <:+: "Error 400 while deleting ds1: RAW".data) :=
  ⟨rfl, rfl, by decide⟩

/-- Claim C9 as amended: for a response with status 400 or above, a
caller-supplied message keyed by the status code wins; otherwise, when
no `while_trying` context is supplied the message wraps the nested
`error.message` extracted from the JSON body (falling back to the raw
body text); when a `while_trying` context is supplied the raw body
text is always used; and the classified error raises when
`fail_on_errors` is set, else it is logged and execution continues. -/
theorem error_message_precedence_amended :
    ∀ (r : Response) (custom : List (Nat × String)) (wt : Option String),
      400 ≤ r.status →
      ((∀ m, custom.find? (fun p => decide (p.1 = r.status)) = some m →
          get_error_message r wt custom = m.2) ∧
       ((custom.find? (fun p => decide (p.1 = r.status))) = none →
          get_error_message r none custom =
            "Error " ++ Nat.repr r.status ++ ": " ++
              jval_render (extract_error_message_from_response r)) ∧
       (∀ w, (custom.find? (fun p => decide (p.1 = r.status))) = none →
          get_error_message r (some w) custom =
            "Error " ++ Nat.repr r.status ++ " while " ++ w ++ ": " ++ r.content) ∧
       (r.json = none → extract_error_message_from_response r = JVal.s r.content) ∧
       (∀ j, r.json = some j →
          extract_error_message_from_response r =
            get_value_from_path j ["error", "message"] (JVal.s r.content)) ∧
       (assert_response_ok r wt true custom =
          Except.error (PbiError.apiError (get_error_message r wt custom))) ∧
       (assert_response_ok r wt false custom =
          Except.ok (some (get_error_message r wt custom)))) := by
  intro r custom wt h400
  refine ⟨?_, ?_, ?_, ?_, ?_, ?_, ?_⟩
  · intro m hm
    unfold get_error_message
    rw [hm]
  · intro hf
    unfold get_error_message
    rw [hf]
  · intro w hf
    unfold get_error_message
    rw [hf]
  · intro hj
    unfold extract_error_message_from_response
    rw [hj]
  · intro j hj
    unfold extract_error_message_from_response
    rw [hj]
  · unfold assert_response_ok
    rw [if_pos h400]
    rfl
  · unfold assert_response_ok
    rw [if_pos h400]
    rfl

/-- Claim C9 witness: the amended theorem applied at the concrete 400
response with nested message `boom` and raw body `RAW`: the custom
message wins when supplied, the nested message is used without a
context, the raw body with one, and the raise/log split follows
`fail_on_errors`. -/
theorem error_message_precedence_witness :
    get_error_message
        ⟨400, "RAW", some (JVal.o [("error", JVal.o [("message", JVal.s "boom")])])⟩
        none [(400, "No access to groups/workspaces lists.")] =
      "No access to groups/workspaces lists." ∧
    get_error_message
        ⟨400, "RAW", some (JVal.o [("error", JVal.o [("message", JVal.s "boom")])])⟩
        none [] = "Error 400: boom" ∧
    assert_response_ok
        ⟨400, "RAW", some (JVal.o [("error", JVal.o [("message", JVal.s "boom")])])⟩
        none true [] =
      Except.error (PbiError.apiError "Error 400: boom") ∧
    assert_response_ok
        ⟨400, "RAW", some (JVal.o [("error", JVal.o [("message", JVal.s "boom")])])⟩
        none false [] = Except.ok (some "Error 400: boom") :=
  ⟨(error_message_precedence_amended
      ⟨400, "RAW", some (JVal.o [("error", JVal.o [("message", JVal.s "boom")])])⟩
      [(400, "No access to groups/workspaces lists.")] none (by decide)).1
      (400, "No access to groups/workspaces lists.") rfl,
   (error_message_precedence_amended
      ⟨400, "RAW", some (JVal.o [("error", JVal.o [("message", JVal.s "boom")])])⟩
      [] none (by decide)).2.1 rfl,
   (error_message_precedence_amended
      ⟨400, "RAW", some (JVal.o [("error", JVal.o [("message", JVal.s "boom")])])⟩
      [] none (by decide)).2.2.2.2.2.1,
   (error_message_precedence_amended
      ⟨400, "RAW", some (JVal.o [("error", JVal.o [("message", JVal.s "boom")])])⟩
      [] none (by decide)).2.2.2.2.2.2⟩
